import Mathlib

/-!
# Verification of the Issues_Tracker backend core

Shallow embedding of the issue-lifecycle core of `src/app/api_server.py`
(data model from `src/app/models.py`).  Timestamps are modelled as rational
numbers of seconds since the epoch; SQLAlchemy rows become records, the
database session becomes an explicit `Store` value threaded through the
handlers, and each Flask handler becomes a pure function returning the new
store together with a response.
-/

namespace IssueTracker

/-! ## Data model (`src/app/models.py`) -/

/-- A row of the `users` table (the fields the core logic reads). -/
structure UserT where
  id : Nat
  service : String
  role : String
  is_active : Bool
  deriving Repr, DecidableEq

/-- A row of the `machines` table (the fields the core logic reads). -/
structure MachineT where
  machine_id : String
  name : String
  deriving Repr, DecidableEq

/-- A row of the `issues` table. -/
structure IssueT where
  id : Nat
  issue_id : String
  machine_id : String
  description : String
  urgency : String
  status : String
  reporter_id : Nat
  assigned_tech_id : Option Nat
  created_at : Rat
  accepted_at : Option Rat
  closed_at : Option Rat
  resolution : Option String
  problem_description : Option String
  deriving Repr, DecidableEq

/-- A row of the `notes` table. -/
structure NoteT where
  text : String
  issue_ref : Nat
  author_id : Nat
  created_at : Rat
  deriving Repr, DecidableEq

/-- The relational store behind the handlers. -/
structure Store where
  issues : List IssueT
  notes : List NoteT
  machines : List MachineT
  deriving Repr, DecidableEq

/-- Outcome of a handler: an HTTP status code, plus the error message when
the handler returned an error body. -/
inductive Resp where
  | ok (code : Nat)
  | err (code : Nat) (msg : String)
  deriving Repr, DecidableEq

/-! ## Small Python-semantics helpers -/

/-- Python truthiness of an optional string: `None` and `''` are falsy. -/
def pyTruthy : Option String → Bool
  | none => false
  | some s => s ≠ ""

/-- Python `max` over a list of naturals (callers guard against `[]`). -/
def pyMax : List Nat → Nat
  | [] => 0
  | x :: xs => xs.foldl max x

/-- Python `str.isdigit`: nonempty and all characters are digits. -/
def pyIsdigit (s : List Char) : Bool :=
  !s.isEmpty && s.all Char.isDigit

/-- Decimal value of a digit string, as Python `int` reads it. -/
def digitsToNat (s : List Char) : Nat :=
  s.foldl (fun a c => a * 10 + (c.toNat - '0'.toNat)) 0

/-- `Issue.query.filter_by(issue_id=...).first()`. -/
def findIssue (s : Store) (iid : String) : Option IssueT :=
  s.issues.find? (fun i => i.issue_id == iid)

/-- Mutating the single ORM object found by `first()`: rewrite the first
list entry satisfying `p`. -/
def updateFirst (p : IssueT → Bool) (f : IssueT → IssueT) : List IssueT → List IssueT
  | [] => []
  | i :: rest => if p i then f i :: rest else i :: updateFirst p f rest

/-! ## Identity and access (`role_required`, api_server.py lines 76-86) -/

/-- The rejection condition of the `role_required` decorator:
`current_user.role not in roles and current_user.service not in roles`. -/
def role_required_rejects (roles : List String) (u : UserT) : Bool :=
  !(roles.contains u.role) && !(roles.contains u.service)

/-! ## Issue id generation (`create_issue`, api_server.py lines 557-576) -/

/-- `issue.issue_id.startswith('ISS')`. -/
def startsWithISS (cs : List Char) : Bool :=
  cs.take 3 = ['I', 'S', 'S']

/-- Python `s.replace('ISS', '')`: delete every (non-overlapping,
left-to-right) occurrence of `"ISS"`. -/
def replaceISS : List Char → List Char
  | [] => []
  | c :: rest =>
    if c = 'I' ∧ rest.take 2 = ['S', 'S'] then replaceISS (rest.drop 2)
    else c :: replaceISS rest
termination_by cs => cs.length
decreasing_by
  · simp only [List.length_cons, List.length_drop]
    omega
  · simp only [List.length_cons]
    omega

/-- The body of the scan loop in `create_issue`: the numeric value an
existing id contributes to `iss_numbers`, if any. -/
def iss_suffix (cs : List Char) : Option Nat :=
  if startsWithISS cs then
    let num_str := replaceISS cs
    if pyIsdigit num_str then some (digitsToNat num_str) else none
  else none

/-- The `iss_numbers` list accumulated by the scan loop in `create_issue`. -/
def iss_numbers (ids : List (List Char)) : List Nat :=
  ids.filterMap iss_suffix

/-- Python `f'ISS{n:03d}'` without the prefix: decimal digits of `n`,
zero-padded on the left to width 3. -/
def pad3 (n : Nat) : List Char :=
  List.replicate (3 - (Nat.toDigits 10 n).length) '0' ++ Nat.toDigits 10 n

/-- The id-generation block of `create_issue`: scan existing ids, take the
max collected number plus one if any, else fall back to `ISS001`. -/
def generate_issue_id (ids : List String) : String :=
  let nums := iss_numbers (ids.map String.data)
  if nums = [] then "ISS001"
  else String.mk ("ISS".data ++ pad3 (pyMax nums + 1))

/-- Spec-side reading of "an id matching the `ISS` prefix format": the
string is `"ISS"` followed by one or more decimal digits, and its numeric
suffix is the value of those digits. -/
def issFormatSuffix (cs : List Char) : Option Nat :=
  if startsWithISS cs then
    let rest := cs.drop 3
    if pyIsdigit rest then some (digitsToNat rest) else none
  else none

/-! ## Issue lifecycle handlers (api_server.py)

Each handler takes the authenticated user, its request parameters, the
current time `now` (for the `datetime.utcnow()` stamps), and the store;
it returns the store after the transaction together with the response.
The `role_required` decorator is inlined as the leading gate check.  New
database rows get their primary key from the caller (`nextPk`) where one
is needed. -/

/-- `POST /api/issues` (`create_issue`, lines 541-597): validate urgency,
generate the next issue id, insert a `reported` issue. -/
def create_issue (u : UserT) (machine_id description urgency : String)
    (now : Rat) (nextPk : Nat) (s : Store) : Store × Resp :=
  if role_required_rejects ["production", "supervisor", "team_leader"] u then
    (s, Resp.err 403 "Insufficient permissions")
  else if !(["low", "medium", "high"].contains urgency) then
    (s, Resp.err 400 "Invalid urgency level")
  else
    let new_issue_id := generate_issue_id (s.issues.map IssueT.issue_id)
    let issue : IssueT :=
      { id := nextPk
        issue_id := new_issue_id
        machine_id := machine_id
        description := description
        urgency := urgency
        status := "reported"
        reporter_id := u.id
        assigned_tech_id := none
        created_at := now
        accepted_at := none
        closed_at := none
        resolution := none
        problem_description := none }
    ({ s with issues := s.issues ++ [issue] }, Resp.ok 201)

/-- `POST /api/issues/<issue_id>/assign` (`assign_issue`, lines 600-633). -/
def assign_issue (u : UserT) (iid : String) (now : Rat) (s : Store) :
    Store × Resp :=
  if role_required_rejects ["maintenance", "supervisor", "team_leader"] u then
    (s, Resp.err 403 "Insufficient permissions")
  else
    match findIssue s iid with
    | none => (s, Resp.err 404 "Issue not found")
    | some issue =>
      if !(["reported", "assigned"].contains issue.status) then
        (s, Resp.err 400 "Issue cannot be assigned in current status")
      else
        ({ s with
           issues := updateFirst (fun j => j.issue_id == iid)
             (fun j =>
               { j with
                 assigned_tech_id := some u.id
                 status := "assigned"
                 accepted_at := some now })
             s.issues
           notes := s.notes ++
             [{ text := "Issue accepted and assigned"
                issue_ref := issue.id
                author_id := u.id
                created_at := now }] },
         Resp.ok 200)

/-- `PATCH /api/issues/<issue_id>/status` (`update_issue_status`,
lines 636-676).  Note the permission checks test `role`, exactly as the
source does. -/
def update_issue_status (u : UserT) (iid : String)
    (new_status : Option String) (now : Rat) (s : Store) : Store × Resp :=
  match findIssue s iid with
  | none => (s, Resp.err 404 "Issue not found")
  | some issue =>
    if u.role == "production" then
      (s, Resp.err 403 "Production users cannot update status")
    else if u.role == "maintenance" && !(issue.assigned_tech_id == some u.id) then
      (s, Resp.err 403 "You can only update your assigned issues")
    else
      match new_status with
      | none => (s, Resp.err 400 "Invalid status")
      | some st =>
        if !(["reported", "assigned", "in_progress", "closed"].contains st) then
          (s, Resp.err 400 "Invalid status")
        else
          ({ s with
             issues := updateFirst (fun j => j.issue_id == iid)
               (fun j => { j with status := st }) s.issues
             notes := s.notes ++
               [{ text := "Status changed to " ++ st
                  issue_ref := issue.id
                  author_id := u.id
                  created_at := now }] },
           Resp.ok 200)

/-- `POST /api/issues/<issue_id>/close` (`close_issue`, lines 679-724).
Note the ownership check tests `role == 'maintenance'`, exactly as the
source does. -/
def close_issue (u : UserT) (iid : String)
    (resolution problem_description : Option String) (now : Rat)
    (s : Store) : Store × Resp :=
  if role_required_rejects ["maintenance", "supervisor", "team_leader"] u then
    (s, Resp.err 403 "Insufficient permissions")
  else
    match findIssue s iid with
    | none => (s, Resp.err 404 "Issue not found")
    | some issue =>
      if issue.status == "closed" then
        (s, Resp.err 400 "Issue is already closed")
      else if u.role == "maintenance" && !(issue.assigned_tech_id == some u.id) then
        (s, Resp.err 403 "You can only close your assigned issues")
      else if !(pyTruthy resolution) then
        (s, Resp.err 400 "Resolution is required")
      else
        ({ s with
           issues := updateFirst (fun j => j.issue_id == iid)
             (fun j =>
               { j with
                 status := "closed"
                 closed_at := some now
                 resolution := resolution
                 problem_description :=
                   if pyTruthy problem_description
                   then problem_description
                   else j.problem_description })
             s.issues
           notes := s.notes ++
             [{ text := "Issue closed. Resolution: " ++ resolution.getD ""
                issue_ref := issue.id
                author_id := u.id
                created_at := now }] },
         Resp.ok 200)

/-! ## Issue listing (`get_issues`, api_server.py lines 450-522) -/

/-- Query parameters of `GET /api/issues`.  The `date` parameter carries
the already-parsed day-bucket start (seconds at UTC midnight); an absent
or unparsable date string behaves as `none`, as in the source. -/
structure IssueQuery where
  status : Option String
  urgency : Option String
  machine_id : Option String
  date : Option Rat
  page : Nat
  per_page : Nat
  deriving Repr

/-- The `case` expression ordering urgencies (high=1, medium=2, low=3,
else 4). -/
def urgency_rank (i : IssueT) : Nat :=
  if i.urgency == "high" then 1
  else if i.urgency == "medium" then 2
  else if i.urgency == "low" then 3
  else 4

/-- The `order_by(created_at.desc(), urgency_order)` ordering as a
comparator: later creation first, ties broken by urgency rank. -/
def issue_le (a b : IssueT) : Bool :=
  decide (b.created_at < a.created_at) ||
    (decide (a.created_at = b.created_at) && decide (urgency_rank a ≤ urgency_rank b))

/-- Insert into a list sorted by `issue_le`. -/
def insertLe (a : IssueT) : List IssueT → List IssueT
  | [] => [a]
  | b :: t => if issue_le a b then a :: b :: t else b :: insertLe a t

/-- Sort by `issue_le` (the order clause of the listing query). -/
def sortIssues : List IssueT → List IssueT
  | [] => []
  | a :: t => insertLe a (sortIssues t)

/-- The inner join with `Machine` on `machine_id`. -/
def joinMachines (machines : List MachineT) (l : List IssueT) : List IssueT :=
  l.filter (fun i => machines.any (fun m => m.machine_id == i.machine_id))

/-- The `status` query filter: a comma means a set of statuses. -/
def status_filter (st : Option String) (l : List IssueT) : List IssueT :=
  match st with
  | none => l
  | some st =>
    if st.contains ',' then
      let status_list := st.splitOn ","
      l.filter (fun i => status_list.contains i.status)
    else
      l.filter (fun i => i.status == st)

/-- The `urgency` query filter. -/
def urgency_filter (ug : Option String) (l : List IssueT) : List IssueT :=
  match ug with
  | none => l
  | some ug => l.filter (fun i => i.urgency == ug)

/-- The `machine_id` query filter. -/
def machine_filter (m : Option String) (l : List IssueT) : List IssueT :=
  match m with
  | none => l
  | some m => l.filter (fun i => i.machine_id == m)

/-- The day-bucket date filter (`created_at >= d` and `< d + one day`). -/
def date_filter (d : Option Rat) (l : List IssueT) : List IssueT :=
  match d with
  | none => l
  | some d =>
    l.filter (fun i => decide (d ≤ i.created_at) && decide (i.created_at < d + 86400))

/-- The explicit query filters, applied in source order. -/
def apply_query_filters (q : IssueQuery) (l : List IssueT) : List IssueT :=
  date_filter q.date
    (machine_filter q.machine_id (urgency_filter q.urgency (status_filter q.status l)))

/-- Flask-SQLAlchemy pagination: page `page` of size `per_page`. -/
def paginate (page per_page : Nat) (l : List IssueT) : List IssueT :=
  (l.drop ((page - 1) * per_page)).take per_page

/-- The listing pipeline with the role-based branch removed: machine join,
explicit filters, ordering, pagination — no reporter or assignment
condition anywhere. -/
def list_pipeline (q : IssueQuery) (machines : List MachineT)
    (issues : List IssueT) : List IssueT :=
  paginate q.page q.per_page
    (sortIssues (apply_query_filters q (joinMachines machines issues)))

/-- `GET /api/issues` (`get_issues`): the issues of the returned page, in
order.  A `production`-service caller is restricted to issues they
reported; a `maintenance`-service caller (and anyone else) is not. -/
def get_issues (u : UserT) (q : IssueQuery) (s : Store) : List IssueT :=
  let base := joinMachines s.machines s.issues
  let visible :=
    if u.service == "production" then
      base.filter (fun i => i.reporter_id == u.id)
    else base
  paginate q.page q.per_page (sortIssues (apply_query_filters q visible))

/-! ## Analytics (api_server.py lines 946-1066) -/

/-- `Issue.query.filter(status == 'closed', closed_at.isnot(None))` of the
dashboard handler. -/
def closed_with_ts (issues : List IssueT) : List IssueT :=
  issues.filter (fun i => i.status == "closed" && i.closed_at.isSome)

/-- The dashboard's `avg_resolution_time` (lines 959-968): mean of
`(closed_at - created_at)` in hours over the closed issues, `0` when
there are none. -/
def dashboard_avg_resolution_time (issues : List IssueT) : Rat :=
  if closed_with_ts issues = [] then 0
  else
    ((closed_with_ts issues).map
        (fun i => (i.closed_at.getD 0 - i.created_at) / 3600)).sum
      / (closed_with_ts issues).length

/-- One technician's closed issues in `analytics_by_technician`
(lines 1040-1047). -/
def tech_closed_issues (tid : Nat) (issues : List IssueT) : List IssueT :=
  issues.filter
    (fun i => i.assigned_tech_id == some tid && i.status == "closed" && i.closed_at.isSome)

/-- The per-technician `avg_time` (lines 1049-1057): the sum runs over the
closed issues that have `accepted_at`, measuring `(closed_at - accepted_at)`
in hours, and is divided by the count of all the technician's closed
issues; `0` when there are none. -/
def tech_avg_resolution_time (tid : Nat) (issues : List IssueT) : Rat :=
  if tech_closed_issues tid issues = [] then 0
  else
    (((tech_closed_issues tid issues).filter (fun i => i.accepted_at.isSome)).map
        (fun i => (i.closed_at.getD 0 - i.accepted_at.getD 0) / 3600)).sum
      / (tech_closed_issues tid issues).length

/-- Spec-side arithmetic mean of a list of rationals, `0` for the empty
list. -/
def meanQ (l : List Rat) : Rat :=
  if l = [] then 0 else l.sum / l.length

/-! ## Concrete witnesses: small stores exercising the handlers -/

/-- A production-service technician (as created by `utils/create_user.py`). -/
def prodTech : UserT :=
  { id := 7, service := "production", role := "technician", is_active := true }

/-- A maintenance-service technician. -/
def maintTech : UserT :=
  { id := 2, service := "maintenance", role := "technician", is_active := true }

/-- A maintenance-service supervisor. -/
def maintSup : UserT :=
  { id := 4, service := "maintenance", role := "supervisor", is_active := true }

def demoMachine : MachineT := { machine_id := "MACH001", name := "Press" }

/-- A freshly reported issue. -/
def demoIssue : IssueT :=
  { id := 1, issue_id := "ISS001", machine_id := "MACH001"
    description := "leak", urgency := "high", status := "reported"
    reporter_id := 7, assigned_tech_id := none, created_at := 0
    accepted_at := none, closed_at := none, resolution := none
    problem_description := none }

/-- An issue mid-repair, assigned to technician 5. -/
def demoIssueBusy : IssueT :=
  { demoIssue with id := 2, issue_id := "ISS002", status := "in_progress"
                   assigned_tech_id := some 5, accepted_at := some 10 }

/-- A closed issue of technician 2: created 0, accepted 3600, closed 10800. -/
def demoIssueDone : IssueT :=
  { demoIssue with id := 3, issue_id := "ISS003", status := "closed"
                   assigned_tech_id := some 2, accepted_at := some 3600
                   closed_at := some 10800, resolution := some "welded" }

/-- An issue reported by a different production user (id 8). -/
def demoIssueOther : IssueT :=
  { demoIssue with id := 4, issue_id := "ISS004", reporter_id := 8
                   created_at := 50 }

def demoStore : Store :=
  { issues := [demoIssue], notes := [], machines := [demoMachine] }

def demoStoreBusy : Store :=
  { issues := [demoIssue, demoIssueBusy], notes := [], machines := [demoMachine] }

def demoStoreFull : Store :=
  { issues := [demoIssue, demoIssueBusy, demoIssueDone, demoIssueOther]
    notes := [], machines := [demoMachine] }

/-- An unconstrained listing query: no filters, first page of ten. -/
def demoQuery : IssueQuery :=
  { status := none, urgency := none, machine_id := none, date := none
    page := 1, per_page := 10 }

/-! ## Lemmas about the embedding -/

theorem replaceISS_digits (l : List Char) (h : l.all Char.isDigit = true) :
    replaceISS l = l := by
  induction l with
  | nil => simp [replaceISS]
  | cons c t ih =>
    rw [List.all_cons, Bool.and_eq_true] at h
    rw [replaceISS, if_neg, ih h.2]
    intro hcond
    rw [hcond.1] at h
    exact absurd h.1 (by decide)

theorem iss_suffix_eq (cs : List Char)
    (h : startsWithISS cs = true → (cs.drop 3).all Char.isDigit = true) :
    iss_suffix cs = issFormatSuffix cs := by
  by_cases hs : startsWithISS cs = true
  · have ht : cs.take 3 = ['I', 'S', 'S'] := by
      have := hs
      unfold startsWithISS at this
      exact of_decide_eq_true this
    have hcs : cs = 'I' :: 'S' :: 'S' :: cs.drop 3 := by
      conv_lhs => rw [← List.take_append_drop 3 cs]
      rw [ht]
      rfl
    have hd : (cs.drop 3).all Char.isDigit = true := h hs
    obtain ⟨r, hcs', hdr⟩ :
        ∃ r, cs = 'I' :: 'S' :: 'S' :: r ∧ r.all Char.isDigit = true :=
      ⟨cs.drop 3, hcs, hd⟩
    have hrep : replaceISS ('I' :: 'S' :: 'S' :: r) = r := by
      rw [replaceISS, if_pos ⟨rfl, rfl⟩]
      exact replaceISS_digits r hdr
    rw [hcs']
    unfold iss_suffix issFormatSuffix
    rw [hrep]
    rfl
  · unfold iss_suffix issFormatSuffix
    rw [Bool.not_eq_true] at hs
    rw [hs]
    simp

theorem iss_numbers_eq (ids : List String)
    (hwf : ∀ s ∈ ids,
      startsWithISS s.data = true → (s.data.drop 3).all Char.isDigit = true) :
    iss_numbers (ids.map String.data) =
      ids.filterMap (fun s => issFormatSuffix s.data) := by
  induction ids with
  | nil => rfl
  | cons a t ih =>
    have ha := iss_suffix_eq a.data (hwf a (by simp))
    have ht : ∀ s ∈ t,
        startsWithISS s.data = true → (s.data.drop 3).all Char.isDigit = true :=
      fun s hs => hwf s (by simp [hs])
    simp only [iss_numbers, List.map_cons, List.filterMap_cons] at *
    rw [ha, ih ht]

/-! ## Claim theorems -/

/-- C5: creating an issue assigns the id formed from the maximum numeric
suffix among existing ids matching the `ISS` prefix format, plus one,
zero-padded to 3 digits; with no matching id the new id is `ISS001`.
The hypothesis says every stored id that starts with `ISS` continues with
digits only, which holds for every id the tracker itself generates. -/
theorem issue_id_generation (ids : List String)
    (hwf : ∀ s ∈ ids,
      startsWithISS s.data = true → (s.data.drop 3).all Char.isDigit = true) :
    generate_issue_id ids =
      (if ids.filterMap (fun s => issFormatSuffix s.data) = [] then "ISS001"
       else String.mk ("ISS".data ++
         pad3 (pyMax (ids.filterMap (fun s => issFormatSuffix s.data)) + 1))) := by
  unfold generate_issue_id
  rw [iss_numbers_eq ids hwf]

/-- C5 witness: ids `ISS001..ISS007` are well-formed and the next id is
`ISS008`. -/
theorem issue_id_generation_witness :
    ((["ISS001", "ISS002", "ISS003", "ISS004", "ISS005", "ISS006", "ISS007"] :
        List String).all
      (fun s => !startsWithISS s.data || (s.data.drop 3).all Char.isDigit)) = true
    ∧ generate_issue_id
        ["ISS001", "ISS002", "ISS003", "ISS004", "ISS005", "ISS006", "ISS007"] =
        "ISS008" :=
  ⟨by decide,
   (issue_id_generation
      ["ISS001", "ISS002", "ISS003", "ISS004", "ISS005", "ISS006", "ISS007"]
      (by decide)).trans (by decide)⟩

/-- C1 (flag): a production-service principal is NOT rejected by the
status-update handler.  The source tests `role == 'production'`, but a
registered principal's role is one of technician, team_leader, supervisor,
manager, so no production-service user ever hits the Forbidden branch:
the update succeeds, mutates the issue and appends a note. -/
theorem update_status_production_service_succeeds :
    (update_issue_status prodTech "ISS001" (some "in_progress") 5 demoStore).2
      = Resp.ok 200
    ∧ ((update_issue_status prodTech "ISS001" (some "in_progress") 5 demoStore).1.issues.map
        IssueT.status) = ["in_progress"]
    ∧ (update_issue_status prodTech "ISS001" (some "in_progress") 5 demoStore).1.notes.length
        = 1 := by
  decide

/-- C2 (flag): a maintenance-service technician who is NOT the issue's
assigned technician successfully closes it.  The ownership check tests
`role == 'maintenance'`, which no registered principal satisfies, so the
maintenance-staff restriction never fires: issue `ISS002` is assigned to
technician 5, yet technician 2 closes it with a 200. -/
theorem close_issue_unassigned_maintenance_succeeds :
    (close_issue maintTech "ISS002" (some "patched") none 99 demoStoreBusy).2
      = Resp.ok 200
    ∧ ((close_issue maintTech "ISS002" (some "patched") none 99 demoStoreBusy).1.issues.map
        IssueT.status) = ["reported", "closed"] := by
  decide

theorem find?_updateFirst (iid : String) (f : IssueT → IssueT)
    (hf : ∀ j, (f j).issue_id = j.issue_id) (l : List IssueT) (i : IssueT)
    (h : l.find? (fun j => j.issue_id == iid) = some i) :
    (updateFirst (fun j => j.issue_id == iid) f l).find?
        (fun j => j.issue_id == iid) = some (f i) := by
  induction l with
  | nil => simp at h
  | cons a t ih =>
    by_cases ha : (a.issue_id == iid) = true
    · rw [@List.find?_cons_of_pos _ (fun j => j.issue_id == iid) a t ha] at h
      obtain rfl : a = i := by injection h
      rw [updateFirst, if_pos ha]
      exact @List.find?_cons_of_pos _ (fun j => j.issue_id == iid) (f a) t
        (by show ((f a).issue_id == iid) = true
            rw [hf a]
            exact ha)
    · rw [@List.find?_cons_of_neg _ (fun j => j.issue_id == iid) a t ha] at h
      rw [updateFirst, if_neg ha]
      exact (@List.find?_cons_of_neg _ (fun j => j.issue_id == iid) a _ ha).trans (ih h)

/-- C3: when the gate admits the caller and the issue's status is `closed`
or `in_progress`, assignment fails with the invalid-transition error and
the store — the issue and its notes — is returned unchanged. -/
theorem assign_issue_invalid_transition (u : UserT) (iid : String) (now : Rat)
    (s : Store) (i : IssueT)
    (hgate : role_required_rejects ["maintenance", "supervisor", "team_leader"] u = false)
    (hfind : findIssue s iid = some i)
    (hst : i.status = "closed" ∨ i.status = "in_progress") :
    assign_issue u iid now s =
      (s, Resp.err 400 "Issue cannot be assigned in current status") := by
  unfold assign_issue
  rw [hgate, hfind]
  rcases hst with h | h <;> simp [h]

/-- C3 witness: assigning the in-progress issue `ISS002` fails and leaves
the store unchanged. -/
theorem assign_issue_invalid_transition_witness :
    (demoIssueBusy.status = "closed" ∨ demoIssueBusy.status = "in_progress")
    ∧ assign_issue maintSup "ISS002" 99 demoStoreBusy
        = (demoStoreBusy, Resp.err 400 "Issue cannot be assigned in current status") :=
  ⟨Or.inr rfl,
   assign_issue_invalid_transition maintSup "ISS002" 99 demoStoreBusy demoIssueBusy
     (by decide) (by decide) (Or.inr rfl)⟩

/-- C4: a successful assign by an admitted caller on a `reported` or
`assigned` issue sets the assigned technician to the caller, moves the
status to `assigned`, stamps `accepted_at`, and appends exactly one audit
note "Issue accepted and assigned" authored by the caller. -/
theorem assign_issue_success (u : UserT) (iid : String) (now : Rat)
    (s : Store) (i : IssueT)
    (hgate : role_required_rejects ["maintenance", "supervisor", "team_leader"] u = false)
    (hfind : findIssue s iid = some i)
    (hst : i.status = "reported" ∨ i.status = "assigned") :
    assign_issue u iid now s =
      ({ s with
         issues := updateFirst (fun j => j.issue_id == iid)
           (fun j =>
             { j with
               assigned_tech_id := some u.id
               status := "assigned"
               accepted_at := some now })
           s.issues
         notes := s.notes ++
           [{ text := "Issue accepted and assigned"
              issue_ref := i.id
              author_id := u.id
              created_at := now }] },
       Resp.ok 200)
    ∧ findIssue (assign_issue u iid now s).1 iid =
        some { i with
               assigned_tech_id := some u.id
               status := "assigned"
               accepted_at := some now } := by
  have hmain : assign_issue u iid now s =
      ({ s with
         issues := updateFirst (fun j => j.issue_id == iid)
           (fun j =>
             { j with
               assigned_tech_id := some u.id
               status := "assigned"
               accepted_at := some now })
           s.issues
         notes := s.notes ++
           [{ text := "Issue accepted and assigned"
              issue_ref := i.id
              author_id := u.id
              created_at := now }] },
       Resp.ok 200) := by
    unfold assign_issue
    rw [hgate, hfind]
    rcases hst with h | h <;> simp [h]
  refine ⟨hmain, ?_⟩
  rw [hmain]
  unfold findIssue at hfind ⊢
  exact find?_updateFirst iid
    (fun j =>
      { j with
        assigned_tech_id := some u.id
        status := "assigned"
        accepted_at := some now })
    (fun j => rfl) s.issues i hfind

/-- C4 witness: technician 2 assigns the reported issue `ISS001` to
themselves. -/
theorem assign_issue_success_witness :
    (demoIssue.status = "reported" ∨ demoIssue.status = "assigned")
    ∧ findIssue (assign_issue maintTech "ISS001" 42 demoStore).1 "ISS001" =
        some { demoIssue with
               assigned_tech_id := some maintTech.id
               status := "assigned"
               accepted_at := some 42 } :=
  ⟨Or.inl rfl,
   (assign_issue_success maintTech "ISS001" 42 demoStore demoIssue
      (by decide) (by decide) (Or.inl rfl)).2⟩

/-- C6: the `role_required` gate admits a principal exactly when the
principal's role or service lies in the required set, and rejects one
whose role and service both fall outside it. -/
theorem role_required_two_axis (roles : List String) (u : UserT) :
    role_required_rejects roles u = false ↔ (u.role ∈ roles ∨ u.service ∈ roles) := by
  have hriff : roles.contains u.role = true ↔ u.role ∈ roles := List.elem_iff
  have hsiff : roles.contains u.service = true ↔ u.service ∈ roles := List.elem_iff
  unfold role_required_rejects
  rcases hr : roles.contains u.role with _ | _ <;>
    rcases hs : roles.contains u.service with _ | _ <;>
      simp_all

theorem mem_insertLe {i a : IssueT} {l : List IssueT} (h : i ∈ insertLe a l) :
    i = a ∨ i ∈ l := by
  induction l with
  | nil => simpa [insertLe] using h
  | cons b t ih =>
    rw [insertLe] at h
    by_cases hc : issue_le a b = true
    · rw [if_pos hc] at h
      simpa using h
    · rw [if_neg hc] at h
      rcases List.mem_cons.mp h with h1 | h2
      · exact Or.inr (by simp [h1])
      · rcases ih h2 with h3 | h4
        · exact Or.inl h3
        · exact Or.inr (by simp [h4])

theorem mem_sortIssues {i : IssueT} {l : List IssueT} (h : i ∈ sortIssues l) :
    i ∈ l := by
  induction l with
  | nil =>
    rw [sortIssues] at h
    exact h
  | cons a t ih =>
    rw [sortIssues] at h
    rcases mem_insertLe h with h1 | h2
    · simp [h1]
    · simp [ih h2]

theorem mem_paginate {i : IssueT} {p pp : Nat} {l : List IssueT}
    (h : i ∈ paginate p pp l) : i ∈ l := by
  unfold paginate at h
  exact List.mem_of_mem_drop (List.mem_of_mem_take h)

theorem mem_status_filter {i : IssueT} {st : Option String} {l : List IssueT}
    (h : i ∈ status_filter st l) : i ∈ l := by
  cases st with
  | none => simpa [status_filter] using h
  | some st =>
    rw [status_filter] at h
    by_cases hc : st.contains ',' = true
    · rw [if_pos hc] at h
      exact List.mem_of_mem_filter h
    · rw [if_neg hc] at h
      exact List.mem_of_mem_filter h

theorem mem_urgency_filter {i : IssueT} {ug : Option String} {l : List IssueT}
    (h : i ∈ urgency_filter ug l) : i ∈ l := by
  cases ug with
  | none => simpa [urgency_filter] using h
  | some ug =>
    rw [urgency_filter] at h
    exact List.mem_of_mem_filter h

theorem mem_machine_filter {i : IssueT} {m : Option String} {l : List IssueT}
    (h : i ∈ machine_filter m l) : i ∈ l := by
  cases m with
  | none => simpa [machine_filter] using h
  | some m =>
    rw [machine_filter] at h
    exact List.mem_of_mem_filter h

theorem mem_date_filter {i : IssueT} {d : Option Rat} {l : List IssueT}
    (h : i ∈ date_filter d l) : i ∈ l := by
  cases d with
  | none => simpa [date_filter] using h
  | some d =>
    rw [date_filter] at h
    exact List.mem_of_mem_filter h

theorem mem_apply_query_filters {i : IssueT} {q : IssueQuery} {l : List IssueT}
    (h : i ∈ apply_query_filters q l) : i ∈ l := by
  unfold apply_query_filters at h
  exact mem_status_filter (mem_urgency_filter (mem_machine_filter (mem_date_filter h)))

/-- C7: a production-service caller's listing contains only issues they
reported, while a maintenance-service caller's listing is exactly the
pipeline with no reporter or assignment condition (machine join, explicit
query filters, ordering, pagination only). -/
theorem get_issues_visibility (u : UserT) (q : IssueQuery) (s : Store) :
    (u.service = "production" →
      ((get_issues u q s).all (fun i => i.reporter_id == u.id)) = true)
    ∧ (u.service = "maintenance" →
      get_issues u q s = list_pipeline q s.machines s.issues) := by
  constructor
  · intro hp
    rw [List.all_eq_true]
    intro i hi
    unfold get_issues at hi
    rw [hp] at hi
    simp only [beq_self_eq_true, if_true] at hi
    exact (List.mem_filter.mp
      (mem_apply_query_filters (mem_sortIssues (mem_paginate hi)))).2
  · intro hm
    unfold get_issues list_pipeline
    rw [hm]
    simp

/-- C7 witness: in a store holding issues of two different reporters, the
production reporter 7 sees only their own, and maintenance technician 2
gets the unrestricted pipeline. -/
theorem get_issues_visibility_witness :
    ((get_issues prodTech demoQuery demoStoreFull).all
      (fun i => i.reporter_id == prodTech.id)) = true
    ∧ get_issues maintTech demoQuery demoStoreFull
        = list_pipeline demoQuery demoStoreFull.machines demoStoreFull.issues :=
  ⟨(get_issues_visibility prodTech demoQuery demoStoreFull).1 rfl,
   (get_issues_visibility maintTech demoQuery demoStoreFull).2 rfl⟩

/-- C8: the dashboard's average resolution time is the arithmetic mean of
`(closed_at - created_at)` in hours over the closed issues carrying a
`closed_at`, and `0` — not an error — when there are none. -/
theorem dashboard_avg_is_mean (issues : List IssueT) :
    dashboard_avg_resolution_time issues =
      meanQ ((closed_with_ts issues).map
        (fun i => (i.closed_at.getD 0 - i.created_at) / 3600)) := by
  unfold dashboard_avg_resolution_time meanQ
  by_cases h : closed_with_ts issues = []
  · simp [h]
  · rw [if_neg h, if_neg (fun hmap => h (List.map_eq_nil_iff.mp hmap)), List.length_map]

/-- Spot check of the spec's worked example: resolutions of 2h and 1h
average to 1.5h, and an empty store averages to 0. -/
theorem dashboard_avg_example :
    dashboard_avg_resolution_time
      [{ demoIssueDone with created_at := 36000, closed_at := some 43200 },
       { demoIssueDone with id := 9, issue_id := "ISS009"
                            created_at := 36000, closed_at := some 39600 }] = 3 / 2
    ∧ dashboard_avg_resolution_time [] = 0 := by
  constructor
  · unfold dashboard_avg_resolution_time closed_with_ts
    simp [demoIssueDone, demoIssue]
    norm_num
  · simp [dashboard_avg_resolution_time, closed_with_ts]

/-- C9: a technician's rollup average is the mean of
`(closed_at - accepted_at)` in hours — accepted-to-closed, not
created-to-closed — over their closed issues, and `0` when they have
none; the hypothesis supplies `accepted_at` on each of those issues,
which assignment always stamps. -/
theorem technician_avg_is_mean (tid : Nat) (issues : List IssueT)
    (hacc : ∀ i ∈ tech_closed_issues tid issues, i.accepted_at.isSome = true) :
    tech_avg_resolution_time tid issues =
      meanQ ((tech_closed_issues tid issues).map
        (fun i => (i.closed_at.getD 0 - i.accepted_at.getD 0) / 3600)) := by
  have hfil : (tech_closed_issues tid issues).filter (fun i => i.accepted_at.isSome)
      = tech_closed_issues tid issues := List.filter_eq_self.mpr hacc
  unfold tech_avg_resolution_time meanQ
  rw [hfil]
  by_cases h : tech_closed_issues tid issues = []
  · simp [h]
  · rw [if_neg h, if_neg (fun hmap => h (List.map_eq_nil_iff.mp hmap)), List.length_map]

/-- C9 witness: technician 2 has one closed issue, accepted at 3600 and
closed at 10800, so the rollup average is 2 hours. -/
theorem technician_avg_is_mean_witness :
    ((tech_closed_issues 2 demoStoreFull.issues).all
      (fun i => i.accepted_at.isSome)) = true
    ∧ tech_avg_resolution_time 2 demoStoreFull.issues =
        meanQ ((tech_closed_issues 2 demoStoreFull.issues).map
          (fun i => (i.closed_at.getD 0 - i.accepted_at.getD 0) / 3600))
    ∧ tech_avg_resolution_time 2 demoStoreFull.issues = 2 :=
  ⟨by decide,
   technician_avg_is_mean 2 demoStoreFull.issues (by decide),
   (technician_avg_is_mean 2 demoStoreFull.issues (by decide)).trans (by
     simp [tech_closed_issues, demoStoreFull, demoIssue, demoIssueBusy,
           demoIssueDone, demoIssueOther, meanQ]
     norm_num)⟩

/-- C10: a successful close rewrites only the issue's status, `closed_at`
and `resolution`, overwrites `problem_description` only when a truthy one
is supplied (an omitted or empty one leaves the stored value), appends
exactly one closing note, and touches nothing else — machine reference,
description, urgency, reporter, assigned technician, `created_at` and
`accepted_at` are carried over unchanged. -/
theorem close_issue_frame (u : UserT) (iid : String)
    (res pd : Option String) (now : Rat) (s : Store) (i : IssueT)
    (hgate : role_required_rejects ["maintenance", "supervisor", "team_leader"] u = false)
    (hfind : findIssue s iid = some i)
    (hnc : (i.status == "closed") = false)
    (hperm : (u.role == "maintenance" && !(i.assigned_tech_id == some u.id)) = false)
    (hres : pyTruthy res = true) :
    close_issue u iid res pd now s =
      ({ s with
         issues := updateFirst (fun j => j.issue_id == iid)
           (fun j =>
             { j with
               status := "closed"
               closed_at := some now
               resolution := res
               problem_description :=
                 if pyTruthy pd then pd else j.problem_description })
           s.issues
         notes := s.notes ++
           [{ text := "Issue closed. Resolution: " ++ res.getD ""
              issue_ref := i.id
              author_id := u.id
              created_at := now }] },
       Resp.ok 200)
    ∧ findIssue (close_issue u iid res pd now s).1 iid =
        some { i with
               status := "closed"
               closed_at := some now
               resolution := res
               problem_description :=
                 if pyTruthy pd then pd else i.problem_description } := by
  have hmain : close_issue u iid res pd now s =
      ({ s with
         issues := updateFirst (fun j => j.issue_id == iid)
           (fun j =>
             { j with
               status := "closed"
               closed_at := some now
               resolution := res
               problem_description :=
                 if pyTruthy pd then pd else j.problem_description })
           s.issues
         notes := s.notes ++
           [{ text := "Issue closed. Resolution: " ++ res.getD ""
              issue_ref := i.id
              author_id := u.id
              created_at := now }] },
       Resp.ok 200) := by
    unfold close_issue
    rw [hgate, hfind]
    simp [hnc, hperm, hres]
  refine ⟨hmain, ?_⟩
  rw [hmain]
  unfold findIssue at hfind ⊢
  exact find?_updateFirst iid
    (fun j =>
      { j with
        status := "closed"
        closed_at := some now
        resolution := res
        problem_description := if pyTruthy pd then pd else j.problem_description })
    (fun j => rfl) s.issues i hfind

/-- C10 witness: supervisor 4 closes the reported issue `ISS001` with a
resolution and no problem_description; the stored issue keeps every other
field, including its empty `problem_description`. -/
theorem close_issue_frame_witness :
    pyTruthy (some "done") = true
    ∧ findIssue (close_issue maintSup "ISS001" (some "done") none 77 demoStore).1 "ISS001" =
        some { demoIssue with
               status := "closed"
               closed_at := some 77
               resolution := some "done"
               problem_description :=
                 if pyTruthy none then none else demoIssue.problem_description } :=
  ⟨rfl,
   (close_issue_frame maintSup "ISS001" (some "done") none 77 demoStore demoIssue
      (by decide) (by decide) (by decide) (by decide) (by decide)).2⟩

end IssueTracker
